import Mathlib

/-!
Shallow embedding of the `ha-interqr` Home Assistant integration
(`src/api.py`, `src/config_flow.py`, `src/custom_components/interqr/{const,coordinator,lock}.py`).

Modelling conventions:
* JSON values parsed by `json.loads` are modelled by the inductive type `Jv`;
  a response body declared `dict[str, Any]` is modelled as `List (String × Jv)`.
* Python exceptions are modelled by the type `PyExc`; fallible code returns
  `Except PyExc _`.  `AttributeError` / `TypeError` model the dynamic failures
  of calling `.get` / string methods on non-dict / non-string values.
* The outcome of an `aiohttp` network call is an explicit input (`NetResult`):
  either a transport error (`aiohttp.ClientError`) or an HTTP response with a
  status, a `Content-Type` header, a body byte length and the JSON parse of
  the body (`none` when the body is not valid JSON).
* Python truthiness (`if x:`), `dict.get`, `x or default`, `str.strip`,
  `str.rstrip("/")` and `re.match` with the `$` anchor (which also matches
  just before a single trailing newline) are modelled explicitly below.
-/

/-- A JSON value, as produced by `json.loads`. -/
inductive Jv where
  | null : Jv
  | str (s : String) : Jv
  | num (n : Int) : Jv
  | bool (b : Bool) : Jv
  | arr (xs : List Jv) : Jv
  | obj (fields : List (String × Jv)) : Jv
  deriving Repr

/-- Python truthiness of a JSON value (`if x:`). -/
def Jv.truthy : Jv → Bool
  | .null => false
  | .str s => !(s == "")
  | .num n => !(n == 0)
  | .bool b => b
  | .arr xs => !xs.isEmpty
  | .obj fs => !fs.isEmpty

/-- Whether the value is JSON `null` (Python `x is None`). -/
def Jv.isNull : Jv → Bool
  | .null => true
  | _ => false

/-- Whether the value is a JSON object (a Python `dict`). -/
def Jv.isObj : Jv → Bool
  | .obj _ => true
  | _ => false

/-- First-match lookup in an object's field list (Python `dict` access; a
`dict` has unique keys, so first-match agrees with `dict.get`). -/
def lookupField : List (String × Jv) → String → Option Jv
  | [], _ => none
  | (k, v) :: rest, key => if k == key then some v else lookupField rest key

/-- Python `x or dflt` where `x` is `d.get(key)` (absent key gives `None`,
which is falsy; any falsy value is replaced by the default). -/
def pyOr (a : Option Jv) (dflt : Jv) : Jv :=
  match a with
  | none => dflt
  | some v => if v.truthy then v else dflt

/-- Python exceptions appearing in this codebase. -/
inductive PyExc where
  | interQRAuthError (msg : String) : PyExc
  | interQRConnectionError (msg : String) : PyExc
  | valueError (msg : String) : PyExc
  | attributeError : PyExc
  | typeError : PyExc
  | configEntryAuthFailed (msg : String) : PyExc
  | updateFailed (msg : String) : PyExc
  deriving Repr, DecidableEq

/-- Python `v.get(key)`: defined on dicts, raises `AttributeError` on any
other value. -/
def pyGet (v : Jv) (key : String) : Except PyExc (Option Jv) :=
  match v with
  | .obj fs => .ok (lookupField fs key)
  | _ => .error .attributeError

/-- Python `v.get(key, dflt)`: the default is used only when the key is
absent; raises `AttributeError` on a non-dict. -/
def pyGetD (v : Jv) (key : String) (dflt : Jv) : Except PyExc Jv :=
  match v with
  | .obj fs => .ok ((lookupField fs key).getD dflt)
  | _ => .error .attributeError

/-- Python `{**fs, key: v}` on a dict: replaces the value in place if the key
exists, otherwise appends the new key at the end. -/
def dictSet : List (String × Jv) → String → Jv → List (String × Jv)
  | [], key, v => [(key, v)]
  | (k, w) :: rest, key, v =>
    if k == key then (key, v) :: rest else (k, w) :: dictSet rest key v

/-- Sublist-of-characters test, used for Python's `pat in s`. -/
def subList : List Char → List Char → Bool
  | hay, pat =>
    pat.isPrefixOf hay ||
      match hay with
      | [] => false
      | _ :: t => subList t pat

/-- Python `pat in s` on strings. -/
def strContains (hay pat : String) : Bool :=
  subList hay.data pat.data

/-- Python `re` semantics of the `$` anchor: it matches at the end of the
string or just before a single trailing newline.  Stripping that optional
newline reduces `re.match(r"^CLASS+$", s)` to a full match of the rest. -/
def stripTrailingNewline (cs : List Char) : List Char :=
  match cs.reverse with
  | '\n' :: rest => rest.reverse
  | _ => cs

/-- `_SAFE_ID_PATTERN = re.compile(r"^[0-9a-zA-Z\-]+$")` together with
`.match`: one or more characters from `[0-9a-zA-Z-]`, with `$` also
accepting one trailing newline (`src/api.py`). -/
def reMatchSafeId (s : String) : Bool :=
  let cs := stripTrailingNewline s.data
  !cs.isEmpty && cs.all (fun c => c.isAlphanum || c == '-')

/-- `PHONE_PATTERN = r"^\+[1-9]\d{6,14}$"` with `re.match` (`\d` modelled as
an ASCII digit). -/
def reMatchPhone (s : String) : Bool :=
  match stripTrailingNewline s.data with
  | '+' :: d :: rest =>
    (d.isDigit && !(d == '0')) && rest.all Char.isDigit &&
      decide (6 ≤ rest.length) && decide (rest.length ≤ 14)
  | _ => false

/-- `VERIFICATION_CODE_PATTERN = r"^\d{4,8}$"` with `re.match` (`\d` modelled
as an ASCII digit). -/
def reMatchCode (s : String) : Bool :=
  let cs := stripTrailingNewline s.data
  cs.all Char.isDigit && decide (4 ≤ cs.length) && decide (cs.length ≤ 8)

/-- Python `template.format(uuid=u)` for the endpoint templates: substitute
the `{uuid}` placeholder. -/
def replaceUuidChars : List Char → List Char → List Char
  | [], _ => []
  | '{' :: 'u' :: 'u' :: 'i' :: 'd' :: '}' :: rest, u => u ++ replaceUuidChars rest u
  | c :: rest, u => c :: replaceUuidChars rest u

/-- Python `template.format(uuid=u)` on strings. -/
def pyFormatUuid (template : String) (u : String) : String :=
  String.mk (replaceUuidChars template.data u.data)

/-- Python `s.rstrip("/")`: drop every trailing slash. -/
def rstripSlashes (s : String) : String :=
  String.mk ((s.data.reverse.dropWhile (fun c => c == '/')).reverse)

/-- Python `s.strip()`: drop whitespace from both ends. -/
def pyStrip (s : String) : String :=
  String.mk (((s.data.dropWhile Char.isWhitespace).reverse.dropWhile
    Char.isWhitespace).reverse)

/-- `_mask_phone` from `src/config_flow.py`: show only the last 4 characters. -/
def mask_phone (phone : String) : String :=
  if phone.length ≤ 4 then "****"
  else String.mk (List.replicate (phone.length - 4) '*') ++
    String.mk (phone.data.drop (phone.length - 4))

/-- `_mask_phone` applied to a dynamically typed value (`len` of a non-string
raises `TypeError`). -/
def pyMaskPhone : Jv → Except PyExc String
  | .str p => .ok (mask_phone p)
  | _ => .error .typeError

/- ── Constants from `src/custom_components/interqr/const.py` ──────────── -/

def DEFAULT_BASE_URL : String := "https://www.interqr.com/api"
def DEV_BASE_URL : String := "https://dev.interqr.com/api"
def ENDPOINT_INIT : String := "/init"
def ENDPOINT_LOGIN : String := "/login"
def ENDPOINT_LOGOUT : String := "/logout"
def ENDPOINT_TWOFA_START : String := "/twofa/start"
def ENDPOINT_TWOFA_VERIFY : String := "/twofa/verify"
def ENDPOINT_USER_DETAILS : String := "/resource/user/details"
def ENDPOINT_UNLOCK : String := "/locks/{uuid}/unlock"
def ENDPOINT_UNLOCK_LONG : String := "/locks/{uuid}/unlock-long"
def CONF_BASE_URL : String := "base_url"
def CONF_TOKEN : String := "token"
def CONF_DEVICE_UUID : String := "device_uuid"
def CONF_USER_UUID : String := "user_uuid"
def CONF_PHONE : String := "phone"
def RELOCK_DELAY : Nat := 5
def MAX_RESPONSE_BYTES : Nat := 1048576
def MAX_2FA_ATTEMPTS : Nat := 5

/-- All endpoint path templates defined in `const.py`. -/
def apiEndpointTemplates : List String :=
  [ENDPOINT_INIT, ENDPOINT_LOGIN, ENDPOINT_LOGOUT, ENDPOINT_TWOFA_START,
   ENDPOINT_TWOFA_VERIFY, ENDPOINT_USER_DETAILS, ENDPOINT_UNLOCK,
   ENDPOINT_UNLOCK_LONG]

/- ── `src/api.py` ─────────────────────────────────────────────────────── -/

/-- Outcome of one `aiohttp` network call, an explicit environment input. -/
inductive NetResult where
  | clientError (msg : String) : NetResult
  | response (status : Nat) (contentType : String) (bodyLen : Nat)
      (bodyJson : Option (List (String × Jv))) : NetResult
  deriving Repr

/-- Mutable fields of `InterQRApiClient` relevant to the claims
(`self._token` and `self._device_uuid`; `Jv.null` models Python `None`). -/
structure ClientState where
  token : Jv
  device_uuid : Jv
  deriving Repr

namespace InterQRApiClient

/-- `InterQRApiClient._request` (`src/api.py` lines 104-169): validate the
`Content-Type`, enforce the response size limit, parse JSON, then map HTTP
401 to `InterQRAuthError` and any other `>= 400` status to
`InterQRConnectionError`; an `aiohttp.ClientError` becomes
`InterQRConnectionError`. -/
def _request (net : NetResult) : Except PyExc (List (String × Jv)) :=
  match net with
  | .clientError msg =>
    .error (.interQRConnectionError ("Error communicating with InterQR API: " ++ msg))
  | .response status contentType bodyLen bodyJson =>
    if !(strContains contentType "application/json") then
      .error (.interQRConnectionError
        ("Unexpected response type from server: " ++ contentType))
    else if decide (bodyLen > MAX_RESPONSE_BYTES) then
      .error (.interQRConnectionError "Response body exceeds maximum allowed size")
    else
      match bodyJson with
      | none => .error (.interQRConnectionError "Invalid JSON in server response")
      | some data =>
        if status == 401 then .error (.interQRAuthError "Authentication failed")
        else if decide (status ≥ 400) then
          .error (.interQRConnectionError ("API error (HTTP " ++ toString status ++ ")"))
        else .ok data

/-- `_validate_uuid` (`src/api.py` lines 49-57) as a boolean test:
`not value or not _SAFE_ID_PATTERN.match(value)` raises `ValueError`. -/
def _validate_uuid_ok (value : String) : Bool :=
  !(value == "") && reMatchSafeId value

/-- `InterQRApiClient.init_device` (`src/api.py` lines 173-199), with the
device UUID passed explicitly by the callers in the config flow.  Stores the
UUID, performs the request and captures a truthy `data.device_uuid` from the
response if present. -/
def init_device (cs : ClientState) (device_uuid : Jv) (net : NetResult) :
    ClientState × Except PyExc (List (String × Jv)) :=
  let cs := { cs with device_uuid := device_uuid }
  match _request net with
  | .error e => (cs, .error e)
  | .ok result =>
    match pyGet (pyOr (lookupField result "data") (.obj [])) "device_uuid" with
    | .error e => (cs, .error e)
    | .ok ruOpt =>
      let ru := ruOpt.getD Jv.null
      if ru.truthy then ({ cs with device_uuid := ru }, .ok result)
      else (cs, .ok result)

/-- `InterQRApiClient.start_2fa` (`src/api.py` lines 201-212): a plain POST,
no client state change. -/
def start_2fa (cs : ClientState) (net : NetResult) :
    ClientState × Except PyExc (List (String × Jv)) :=
  (cs, _request net)

/-- `InterQRApiClient.verify_2fa` (`src/api.py` lines 214-245): perform the
request, extract `result.get("data") or {}` then `data.get("token")`; a
truthy token is stored in `self._token`, otherwise `InterQRAuthError` is
raised (a truthy non-dict `data` raises `AttributeError` at `data.get`). -/
def verify_2fa (cs : ClientState) (net : NetResult) :
    ClientState × Except PyExc (List (String × Jv)) :=
  match _request net with
  | .error e => (cs, .error e)
  | .ok result =>
    match pyGet (pyOr (lookupField result "data") (.obj [])) "token" with
    | .error e => (cs, .error e)
    | .ok tOpt =>
      let token := tOpt.getD Jv.null
      if token.truthy then ({ cs with token := token }, .ok result)
      else (cs, .error (.interQRAuthError "No token in verify response"))

/-- `InterQRApiClient.login` (`src/api.py` lines 247-266): re-authenticate
with `device_uuid or self._device_uuid`; raise `InterQRAuthError` when both
are falsy; store a truthy `data.token` from the response (no error when the
token is absent). -/
def login (cs : ClientState) (device_uuid : Jv) (net : NetResult) :
    ClientState × Except PyExc (List (String × Jv)) :=
  let uuid_to_use := if device_uuid.truthy then device_uuid else cs.device_uuid
  if !uuid_to_use.truthy then
    (cs, .error (.interQRAuthError "No device_uuid available for login"))
  else
    match _request net with
    | .error e => (cs, .error e)
    | .ok result =>
      match pyGet (pyOr (lookupField result "data") (.obj [])) "token" with
      | .error e => (cs, .error e)
      | .ok tOpt =>
        let token := tOpt.getD Jv.null
        if token.truthy then ({ cs with token := token }, .ok result)
        else (cs, .ok result)

/-- `InterQRApiClient.get_user_details` (`src/api.py` lines 287-295): a plain
authenticated GET of `/resource/user/details`. -/
def get_user_details (net : NetResult) : Except PyExc (List (String × Jv)) :=
  _request net

/-- An HTTP request effect issued through the aiohttp session. -/
inductive ApiEffect where
  | apiRequest (method : String) (endpoint : String) : ApiEffect
  deriving Repr, DecidableEq

/-- `InterQRApiClient.unlock` (`src/api.py` lines 299-308): validate the lock
identifier (raising `ValueError` before any request), then POST
`/locks/{uuid}/unlock`. -/
def unlock (lock_uuid : String) (net : NetResult) :
    List ApiEffect × Except PyExc (List (String × Jv)) :=
  if !(_validate_uuid_ok lock_uuid) then
    ([], .error (.valueError "Invalid lock_uuid format: expected alphanumeric identifier"))
  else
    ([.apiRequest "POST" (pyFormatUuid ENDPOINT_UNLOCK lock_uuid)], _request net)

/-- `InterQRApiClient.unlock_long` (`src/api.py` lines 310-319): validate the
lock identifier, then POST `/locks/{uuid}/unlock-long`. -/
def unlock_long (lock_uuid : String) (net : NetResult) :
    List ApiEffect × Except PyExc (List (String × Jv)) :=
  if !(_validate_uuid_ok lock_uuid) then
    ([], .error (.valueError "Invalid lock_uuid format: expected alphanumeric identifier"))
  else
    ([.apiRequest "POST" (pyFormatUuid ENDPOINT_UNLOCK_LONG lock_uuid)], _request net)

end InterQRApiClient

/- ── `src/custom_components/interqr/coordinator.py` ───────────────────── -/

namespace InterQRDataCoordinator

/-- `InterQRDataCoordinator._async_update_data` (`coordinator.py` lines
41-69): fetch user details; `InterQRAuthError` becomes
`ConfigEntryAuthFailed`, `InterQRConnectionError` becomes `UpdateFailed`;
a missing or `null` `data` field raises `UpdateFailed`; otherwise return
`{"locks": data.get("locks", [])}` (where `.get` on a non-dict `data`
raises `AttributeError`). -/
def _async_update_data (net : NetResult) : Except PyExc (List (String × Jv)) :=
  match InterQRApiClient.get_user_details net with
  | .error (.interQRAuthError _) =>
    .error (.configEntryAuthFailed
      "InterQR authentication failed, re-authentication required")
  | .error (.interQRConnectionError m) =>
    .error (.updateFailed ("Error fetching InterQR data: " ++ m))
  | .error e => .error e
  | .ok response =>
    match lookupField response "data" with
    | none => .error (.updateFailed "InterQR API returned no user data")
    | some d =>
      if d.isNull then .error (.updateFailed "InterQR API returned no user data")
      else
        match pyGetD d "locks" (.arr []) with
        | .error e => .error e
        | .ok locks => .ok [("locks", locks)]

end InterQRDataCoordinator

/- ── `src/custom_components/interqr/lock.py` ──────────────────────────── -/

/-- Mutable entity attributes of `InterQRLock` relevant to the claims. -/
structure LockEntityState where
  is_locked : Bool
  is_unlocking : Bool
  cancel_relock : Option Nat
  allow_long_unlock : Bool
  lock_uuid : String
  deriving Repr

/-- The lock entity together with the Home Assistant timer environment:
`pendingTimers` are the ids of timers scheduled through `async_call_later`
and not yet cancelled or fired; `nextTimer` is the next fresh id. -/
structure LockWorld where
  entity : LockEntityState
  pendingTimers : List Nat
  nextTimer : Nat
  deriving Repr

/-- Observable side effects of the lock entity methods. -/
inductive Effect where
  | apiRequest (method : String) (endpoint : String) : Effect
  | writeHaState : Effect
  | scheduleLater (id : Nat) (delay : Nat) : Effect
  | cancelLater (id : Nat) : Effect
  deriving Repr, DecidableEq

/-- Whether an effect is an HTTP request to the API. -/
def Effect.isApiReq : Effect → Bool
  | .apiRequest _ _ => true
  | _ => false

/-- Effects of an API-client call lifted into entity effects. -/
def liftApiEffects : List InterQRApiClient.ApiEffect → List Effect
  | [] => []
  | .apiRequest m e :: rest => .apiRequest m e :: liftApiEffects rest

namespace InterQRLock

/-- `InterQRLock._async_relock` (`lock.py` lines 124-130), invoked by the
timer framework when the pending timer `firedId` fires (a fired timer is
removed from the pending set): clear the cancel handle, set the locked state
back to `True` and write the HA state. -/
def _async_relock (w : LockWorld) (firedId : Nat) : LockWorld × List Effect :=
  let w := { w with pendingTimers := w.pendingTimers.filter (fun t => !(t == firedId)) }
  ({ w with entity := { w.entity with cancel_relock := none, is_locked := true } },
   [.writeHaState])

/-- `InterQRLock._schedule_auto_relock` (`lock.py` lines 132-140): cancel any
pending relock timer, then schedule `_async_relock` after `RELOCK_DELAY`
seconds and store the new cancel handle. -/
def _schedule_auto_relock (w : LockWorld) : LockWorld × List Effect :=
  let (w, cancelEffs) :=
    match w.entity.cancel_relock with
    | some id =>
      ({ w with pendingTimers := w.pendingTimers.filter (fun t => !(t == id)) },
       [Effect.cancelLater id])
    | none => (w, [])
  let id := w.nextTimer
  ({ w with
      entity := { w.entity with cancel_relock := some id },
      pendingTimers := w.pendingTimers ++ [id],
      nextTimer := id + 1 },
   cancelEffs ++ [Effect.scheduleLater id RELOCK_DELAY])

/-- `InterQRLock.async_unlock` (`lock.py` lines 144-164): set
`is_unlocking`, write state, call `api.unlock`; on success set
`is_locked = False`, on failure set `is_locked = True` and re-raise; in both
cases clear `is_unlocking` and write state; on success finally schedule the
auto-relock. -/
def async_unlock (w : LockWorld) (net : NetResult) :
    LockWorld × List Effect × Except PyExc Unit :=
  let w1 := { w with entity := { w.entity with is_unlocking := true } }
  let (apiEffs, res) := InterQRApiClient.unlock w1.entity.lock_uuid net
  match res with
  | .ok _ =>
    let w2 := { w1 with entity :=
      { w1.entity with is_locked := false, is_unlocking := false } }
    let (w3, schedEffs) := _schedule_auto_relock w2
    (w3, [Effect.writeHaState] ++ liftApiEffects apiEffs ++ [Effect.writeHaState]
      ++ schedEffs, .ok ())
  | .error e =>
    let w2 := { w1 with entity :=
      { w1.entity with is_locked := true, is_unlocking := false } }
    (w2, [Effect.writeHaState] ++ liftApiEffects apiEffs ++ [Effect.writeHaState],
     .error e)

/-- `InterQRLock.async_open` (`lock.py` lines 166-189): if long unlock is not
allowed, log a warning and return without any effect; otherwise behave like
`async_unlock` but through `api.unlock_long`. -/
def async_open (w : LockWorld) (net : NetResult) :
    LockWorld × List Effect × Except PyExc Unit :=
  if !w.entity.allow_long_unlock then (w, [], .ok ())
  else
    let w1 := { w with entity := { w.entity with is_unlocking := true } }
    let (apiEffs, res) := InterQRApiClient.unlock_long w1.entity.lock_uuid net
    match res with
    | .ok _ =>
      let w2 := { w1 with entity :=
        { w1.entity with is_locked := false, is_unlocking := false } }
      let (w3, schedEffs) := _schedule_auto_relock w2
      (w3, [Effect.writeHaState] ++ liftApiEffects apiEffs ++ [Effect.writeHaState]
        ++ schedEffs, .ok ())
    | .error e =>
      let w2 := { w1 with entity :=
        { w1.entity with is_locked := true, is_unlocking := false } }
      (w2, [Effect.writeHaState] ++ liftApiEffects apiEffs ++ [Effect.writeHaState],
       .error e)

/-- `InterQRLock.async_lock` (`lock.py` lines 191-205): no API call; cancel
any pending auto-relock timer, clear the handle, set `is_locked = True` and
write the HA state. -/
def async_lock (w : LockWorld) : LockWorld × List Effect :=
  let (w1, cancelEffs) :=
    match w.entity.cancel_relock with
    | some id =>
      ({ w with
          pendingTimers := w.pendingTimers.filter (fun t => !(t == id)),
          entity := { w.entity with cancel_relock := none } },
       [Effect.cancelLater id])
    | none => (w, [])
  ({ w1 with entity := { w1.entity with is_locked := true } },
   cancelEffs ++ [Effect.writeHaState])

end InterQRLock

/-- Single-timer invariant of a lock entity: the pending auto-relock timers
are exactly the one named by the stored cancel handle (and handles are
always strictly older than the next fresh id). -/
def timerInv (w : LockWorld) : Prop :=
  match w.entity.cancel_relock with
  | none => w.pendingTimers = []
  | some id => w.pendingTimers = [id] ∧ id < w.nextTimer

/- ── `src/config_flow.py` ─────────────────────────────────────────────── -/

/-- The server choice of the user step; `vol.In(SERVER_OPTIONS)` restricts
the input to these three values. -/
inductive Server where
  | production : Server
  | development : Server
  | custom : Server
  deriving Repr, DecidableEq

/-- The user step's form input (`STEP_USER_DATA_SCHEMA`: `server`, `phone`
required strings, `custom_url` optional with default `""`). -/
structure UserInput where
  server : Server
  phone : String
  custom_url : String
  deriving Repr

/-- Mutable fields of `InterQRConfigFlow` (`config_flow.py` lines 125-132).
String-typed fields are modelled as `Jv` because `async_step_reauth` loads
them from config-entry data; `api = none` models `self._api = None`. -/
structure FlowState where
  base_url : Jv
  phone : Jv
  device_uuid : Jv
  second_auth_token : Jv
  twofa_attempts : Nat
  api : Option ClientState
  deriving Repr

/-- The initial flow state set by `InterQRConfigFlow.__init__`. -/
def initFlowState : FlowState :=
  { base_url := .str DEFAULT_BASE_URL, phone := .str "", device_uuid := .str "",
    second_auth_token := .null, twofa_attempts := 0, api := none }

/-- The `ConfigFlowResult` values produced by the flow steps. -/
inductive FlowResult where
  | showForm (stepId : String) (errors : List (String × String)) : FlowResult
  | createEntry (title : String) (data : List (String × Jv)) : FlowResult
  | abort (reason : String) : FlowResult
  deriving Repr

namespace InterQRConfigFlow

/-- The tail of `async_step_verify` from the `verify_2fa` call on
(`config_flow.py` lines 225-266): map `InterQRAuthError` (and a missing
token) to the `invalid_auth` form error and `InterQRConnectionError` to
`cannot_connect`; on a token, abort for an already configured account or
create the entry with exactly the five config keys.  `s` is the flow state
after the attempt counter was incremented. -/
def verifyCall (s : FlowState) (cs : ClientState) (net : NetResult)
    (alreadyConfigured : Bool) : Except PyExc (FlowState × FlowResult) :=
  match InterQRApiClient.verify_2fa cs net with
  | (_, .error (.interQRAuthError _)) =>
    .ok (s, .showForm "verify" [("base", "invalid_auth")])
  | (_, .error (.interQRConnectionError _)) =>
    .ok (s, .showForm "verify" [("base", "cannot_connect")])
  | (_, .error e) => .error e
  | (cs1, .ok verify_result) =>
    let s := { s with api := some cs1 }
    let data := pyOr (lookupField verify_result "data") (.obj [])
    match pyGet data "token", pyGetD data "uuid" (.str "") with
    | .error e, _ => .error e
    | _, .error e => .error e
    | .ok tOpt, .ok user_uuid =>
      let token := tOpt.getD Jv.null
      if !token.truthy then
        .ok (s, .showForm "verify" [("base", "invalid_auth")])
      else if alreadyConfigured then .ok (s, .abort "already_configured")
      else
        match pyMaskPhone s.phone with
        | .error e => .error e
        | .ok masked =>
          .ok (s, .createEntry ("InterQR (" ++ masked ++ ")")
            [(CONF_BASE_URL, s.base_url), (CONF_TOKEN, token),
             (CONF_DEVICE_UUID, s.device_uuid),
             (CONF_USER_UUID, user_uuid), (CONF_PHONE, s.phone)])

/-- `InterQRConfigFlow.async_step_verify` (`config_flow.py` lines 207-266):
count the submission and abort after `MAX_2FA_ATTEMPTS`; validate the code
format; then run `verifyCall`.  `net` is the network outcome of the verify
call; `alreadyConfigured` is the outcome of
`_abort_if_unique_id_configured`. -/
def async_step_verify (s : FlowState) (input : Option String) (net : NetResult)
    (alreadyConfigured : Bool) : Except PyExc (FlowState × FlowResult) :=
  match input with
  | none => .ok (s, .showForm "verify" [])
  | some rawCode =>
    let s := { s with twofa_attempts := s.twofa_attempts + 1 }
    if decide (s.twofa_attempts > MAX_2FA_ATTEMPTS) then
      .ok (s, .abort "too_many_attempts")
    else
      let code := pyStrip rawCode
      if !(reMatchCode code) then
        .ok (s, .showForm "verify" [("code", "invalid_code")])
      else
        match s.api with
        | none => .error .attributeError
        | some cs => verifyCall s cs net alreadyConfigured

/-- The tail of `async_step_user` after a valid form (`config_flow.py`
lines 162-199): generate the device UUID, create the API client, init the
device and start 2FA mapping errors to form errors (`InterQRAuthError` of
the init call to `init_failed`, of the 2FA-start call to `twofa_failed`),
capture `data.second_auth_token`, reset the attempt counter and continue
with the verification form. -/
def userAuthPhase (s : FlowState) (gen_uuid : String)
    (initNet start2faNet : NetResult) : Except PyExc (FlowState × FlowResult) :=
  let s := { s with device_uuid := .str gen_uuid }
  let cs0 : ClientState := { token := .null, device_uuid := .null }
  match InterQRApiClient.init_device cs0 (.str gen_uuid) initNet with
  | (cs1, initRes) =>
    let s := { s with api := some cs1 }
    match initRes with
    | .error (.interQRConnectionError _) =>
      .ok (s, .showForm "user" [("base", "cannot_connect")])
    | .error (.interQRAuthError _) =>
      .ok (s, .showForm "user" [("base", "init_failed")])
    | .error e => .error e
    | .ok _ =>
      match InterQRApiClient.start_2fa cs1 start2faNet with
      | (cs2, sRes) =>
        let s := { s with api := some cs2 }
        match sRes with
        | .error (.interQRConnectionError _) =>
          .ok (s, .showForm "user" [("base", "cannot_connect")])
        | .error (.interQRAuthError _) =>
          .ok (s, .showForm "user" [("base", "twofa_failed")])
        | .error e => .error e
        | .ok twofa_result =>
          match pyGet (pyOr (lookupField twofa_result "data") (.obj []))
              "second_auth_token" with
          | .error e => .error e
          | .ok satOpt =>
            let s := { s with
              second_auth_token := satOpt.getD Jv.null, twofa_attempts := 0 }
            async_step_verify s none start2faNet false

/-- `InterQRConfigFlow.async_step_user` (`config_flow.py` lines 134-205):
resolve the base URL (with `_validate_custom_url`'s outcome `urlErr` as an
environment input), validate the phone, then init the device and start 2FA,
mapping errors to form errors; on success reset the attempt counter and
continue with the verification form.  `gen_uuid` is the generated
`uuid4`; `initNet` / `start2faNet` are the two network outcomes. -/
def async_step_user (s : FlowState) (input : Option UserInput)
    (urlErr : Option String) (gen_uuid : String)
    (initNet start2faNet : NetResult) : Except PyExc (FlowState × FlowResult) :=
  match input with
  | none => .ok (s, .showForm "user" [])
  | some ui =>
    let (s, errs) :=
      match ui.server with
      | .custom =>
        let cu := pyStrip ui.custom_url
        if cu == "" then (s, [("custom_url", "cannot_connect")])
        else
          match urlErr with
          | some e => (s, [("custom_url", e)])
          | none => ({ s with base_url := .str (rstripSlashes cu) }, [])
      | .production => ({ s with base_url := .str DEFAULT_BASE_URL }, [])
      | .development => ({ s with base_url := .str DEV_BASE_URL }, [])
    let s := { s with phone := .str (pyStrip ui.phone) }
    let errs :=
      if errs.isEmpty && !(reMatchPhone (pyStrip ui.phone)) then
        [("phone", "invalid_phone")]
      else errs
    if !errs.isEmpty then .ok (s, .showForm "user" errs)
    else userAuthPhase s gen_uuid initNet start2faNet

/-- `InterQRConfigFlow.async_step_reauth` (`config_flow.py` lines 268-305):
load `base_url` / `device_uuid` / `phone` from the entry data, attempt a
quick `login`; on a truthy token update the config entry with
`{**entry.data, CONF_TOKEN: token}` and abort with `reauth_successful`;
on `InterQRAuthError` / `InterQRConnectionError` or a falsy token fall back
to the `reauth_confirm` form.  `entry` is the result of
`async_get_entry` and the second component of the result is the updated
entry data (`none` when no update was performed). -/
def async_step_reauth (s : FlowState) (entry_data : List (String × Jv))
    (loginNet : NetResult) (entry : Option (List (String × Jv))) :
    Except PyExc (FlowState × Option (List (String × Jv)) × FlowResult) :=
  let s := { s with
    base_url := (lookupField entry_data CONF_BASE_URL).getD (.str DEFAULT_BASE_URL),
    device_uuid := (lookupField entry_data CONF_DEVICE_UUID).getD (.str ""),
    phone := (lookupField entry_data CONF_PHONE).getD (.str "") }
  let cs0 : ClientState := { token := .null, device_uuid := .null }
  let (cs1, res) := InterQRApiClient.login cs0 s.device_uuid loginNet
  let s := { s with api := some cs1 }
  match res with
  | .error (.interQRAuthError _) => .ok (s, none, .showForm "reauth_confirm" [])
  | .error (.interQRConnectionError _) => .ok (s, none, .showForm "reauth_confirm" [])
  | .error e => .error e
  | .ok login_result =>
    match pyGet (pyOr (lookupField login_result "data") (.obj [])) "token" with
    | .error e => .error e
    | .ok tOpt =>
      let token := tOpt.getD Jv.null
      if token.truthy then
        match entry with
        | some e => .ok (s, some (dictSet e CONF_TOKEN token), .abort "reauth_successful")
        | none => .ok (s, none, .abort "reauth_successful")
      else .ok (s, none, .showForm "reauth_confirm" [])

/-- The tail of `async_step_reauth_confirm` after a valid phone
(`config_flow.py` lines 319-329): generate a fresh device UUID, init the
device and start 2FA on the existing client (both `InterQRAuthError`s map
to `twofa_failed` here), reset the attempt counter and continue with the
verification form. -/
def reauthConfirmAuthPhase (s : FlowState) (cs : ClientState) (gen_uuid : String)
    (initNet start2faNet : NetResult) : Except PyExc (FlowState × FlowResult) :=
  let s := { s with device_uuid := .str gen_uuid }
  match InterQRApiClient.init_device cs (.str gen_uuid) initNet with
  | (cs1, initRes) =>
    let s := { s with api := some cs1 }
    match initRes with
    | .error (.interQRConnectionError _) =>
      .ok (s, .showForm "reauth_confirm" [("base", "cannot_connect")])
    | .error (.interQRAuthError _) =>
      .ok (s, .showForm "reauth_confirm" [("base", "twofa_failed")])
    | .error e => .error e
    | .ok _ =>
      match InterQRApiClient.start_2fa cs1 start2faNet with
      | (cs2, sRes) =>
        let s := { s with api := some cs2 }
        match sRes with
        | .error (.interQRConnectionError _) =>
          .ok (s, .showForm "reauth_confirm" [("base", "cannot_connect")])
        | .error (.interQRAuthError _) =>
          .ok (s, .showForm "reauth_confirm" [("base", "twofa_failed")])
        | .error e => .error e
        | .ok _ =>
          let s := { s with twofa_attempts := 0 }
          async_step_verify s none start2faNet false

/-- `InterQRConfigFlow.async_step_reauth_confirm` (`config_flow.py` lines
307-339): re-validate the phone, generate a fresh device UUID, init the
device and start 2FA (both exceptions map to form errors, `InterQRAuthError`
to `twofa_failed`), reset the attempt counter and continue with the
verification form. -/
def async_step_reauth_confirm (s : FlowState) (input : Option String)
    (gen_uuid : String) (initNet start2faNet : NetResult) :
    Except PyExc (FlowState × FlowResult) :=
  match input with
  | none => .ok (s, .showForm "reauth_confirm" [])
  | some phoneIn =>
    let s := { s with phone := .str (pyStrip phoneIn) }
    if !(reMatchPhone (pyStrip phoneIn)) then
      .ok (s, .showForm "reauth_confirm" [("phone", "invalid_phone")])
    else
      match s.api with
      | none => .error .attributeError
      | some cs => reauthConfirmAuthPhase s cs gen_uuid initNet start2faNet

end InterQRConfigFlow

/-- Whether an API call result is a success. -/
def exceptIsOk : Except PyExc (List (String × Jv)) → Bool
  | .ok _ => true
  | .error _ => false

/-- Whether a result is a raised `InterQRAuthError`. -/
def exceptIsAuthError {α : Type} : Except PyExc α → Bool
  | .error (.interQRAuthError _) => true
  | _ => false

/- ════════════════════════ Theorems ════════════════════════ -/

/-- Helper: `pyGet` on a non-dict raises `AttributeError`. -/
theorem pyGet_not_obj (v : Jv) (key : String) (h : v.isObj = false) :
    pyGet v key = .error .attributeError := by
  cases v <;> simp_all [Jv.isObj, pyGet]

/-- Helper: looking up the overwritten key after a dict merge. -/
theorem lookupField_dictSet_self (fs : List (String × Jv)) (key : String) (v : Jv) :
    lookupField (dictSet fs key v) key = some v := by
  induction fs with
  | nil => simp [dictSet, lookupField]
  | cons p rest ih =>
    obtain ⟨k, w⟩ := p
    by_cases hk : k = key <;> simp [dictSet, lookupField, hk, ih]

/-- Helper: a dict merge on one key leaves every other key unchanged. -/
theorem lookupField_dictSet_ne (fs : List (String × Jv)) (key : String) (v : Jv)
    (k' : String) (h : ¬ k' = key) :
    lookupField (dictSet fs key v) k' = lookupField fs k' := by
  have h2 : ¬ key = k' := fun hh => h hh.symm
  induction fs with
  | nil => simp [dictSet, lookupField, h2]
  | cons p rest ih =>
    obtain ⟨k, w⟩ := p
    by_cases hk : k = key
    · subst hk
      simp [dictSet, lookupField, h2]
    · by_cases hkk : k = k' <;> simp [dictSet, lookupField, hk, hkk, ih, h]

/-- Helper: `verify_2fa` succeeding implies the stored token is truthy. -/
theorem verify_2fa_ok_token (cs : ClientState) (net : NetResult)
    (cs' : ClientState) (r : List (String × Jv))
    (h : InterQRApiClient.verify_2fa cs net = (cs', .ok r)) :
    cs'.token.truthy = true := by
  unfold InterQRApiClient.verify_2fa at h
  cases hreq : InterQRApiClient._request net with
  | error e => simp only [hreq] at h; simp at h
  | ok result =>
    simp only [hreq] at h
    cases hget : pyGet (pyOr (lookupField result "data") (.obj [])) "token" with
    | error e => simp only [hget] at h; simp at h
    | ok tOpt =>
      simp only [hget] at h
      by_cases ht : (tOpt.getD Jv.null).truthy = true
      · simp only [ht, if_true] at h
        have h1 := congrArg Prod.fst h
        simp at h1
        rw [← h1]
        exact ht
      · simp only [Bool.not_eq_true] at ht
        simp [ht] at h

/-- Helper: `init_device` returning a result implies the request succeeded. -/
theorem init_device_ok_request (cs : ClientState) (du : Jv) (net : NetResult)
    (cs' : ClientState) (r : List (String × Jv))
    (h : InterQRApiClient.init_device cs du net = (cs', .ok r)) :
    exceptIsOk (InterQRApiClient._request net) = true := by
  unfold InterQRApiClient.init_device at h
  cases hreq : InterQRApiClient._request net with
  | error e => rw [hreq] at h; simp at h
  | ok result => simp [exceptIsOk]

/-- Helper: no `scheduleLater` effect originates from the API client. -/
theorem liftApiEffects_no_schedule (l : List InterQRApiClient.ApiEffect)
    (id d : Nat) : Effect.scheduleLater id d ∉ liftApiEffects l := by
  induction l with
  | nil => simp [liftApiEffects]
  | cons e rest ih => cases e; simp [liftApiEffects, ih]

/-- C3 counterexample: a response with HTTP status 401 whose `Content-Type`
is not JSON makes `_request` raise `InterQRConnectionError`, not
`InterQRAuthError` — the content-type check runs before the status check. -/
theorem c3_counterexample :
    InterQRApiClient._request (.response 401 "text/html" 2 (some [])) =
      .error (.interQRConnectionError "Unexpected response type from server: text/html")
    ∧ exceptIsAuthError
        (InterQRApiClient._request (.response 401 "text/html" 2 (some []))) = false :=
  ⟨rfl, rfl⟩

/-- C3 (amended): for every API response with HTTP status 401 whose
`Content-Type` contains `application/json`, whose body is within the size
limit and parses as JSON, `_request` raises `InterQRAuthError`; and whenever
the coordinator's poll encounters an `InterQRAuthError` it raises
`ConfigEntryAuthFailed` rather than `UpdateFailed`. -/
theorem c3_reauth_on_expiry (ct : String) (bodyLen : Nat) (d : List (String × Jv))
    (hct : strContains ct "application/json" = true)
    (hlen : bodyLen ≤ MAX_RESPONSE_BYTES) :
    InterQRApiClient._request (.response 401 ct bodyLen (some d)) =
      .error (.interQRAuthError "Authentication failed")
  ∧ (∀ net m, InterQRApiClient._request net = .error (.interQRAuthError m) →
      InterQRDataCoordinator._async_update_data net =
        .error (.configEntryAuthFailed
          "InterQR authentication failed, re-authentication required")) := by
  constructor
  · simp [InterQRApiClient._request, hct, Nat.not_lt.mpr hlen]
  · intro net m h
    simp [InterQRDataCoordinator._async_update_data,
      InterQRApiClient.get_user_details, h]

/-- C3 witness: a well-formed 401 response triggers the reauth path. -/
theorem c3_reauth_on_expiry_witness :
    InterQRApiClient._request (.response 401 "application/json" 2 (some [])) =
      .error (.interQRAuthError "Authentication failed")
  ∧ InterQRDataCoordinator._async_update_data
      (.response 401 "application/json" 2 (some [])) =
      .error (.configEntryAuthFailed
        "InterQR authentication failed, re-authentication required") := by
  have h := c3_reauth_on_expiry "application/json" 2 [] (by decide)
    (by norm_num [MAX_RESPONSE_BYTES])
  exact ⟨h.1, h.2 _ _ h.1⟩

/-- C4 counterexample: a verify response whose `data` field is the truthy
non-dict value `5` contains no token, yet `verify_2fa` raises
`AttributeError` (at `data.get("token")`), not `InterQRAuthError`. -/
theorem c4_counterexample :
    InterQRApiClient.verify_2fa { token := .null, device_uuid := .null }
        (.response 200 "application/json" 10 (some [("data", .num 5)])) =
      ({ token := .null, device_uuid := .null }, .error .attributeError)
    ∧ exceptIsAuthError
        (InterQRApiClient.verify_2fa { token := .null, device_uuid := .null }
          (.response 200 "application/json" 10 (some [("data", .num 5)]))).2 = false :=
  ⟨rfl, rfl⟩

/-- C4 (amended): for every successful `verify_2fa` call whose response has a
truthy `data.token`, the stored token is set to that value; when the `data`
field is a dict (or absent/falsy, defaulting to `{}`) without a truthy
token, `verify_2fa` raises `InterQRAuthError` and the client state is
unchanged; when the request itself raises, the error propagates with the
state unchanged; and a truthy non-dict `data` raises `AttributeError`
(state unchanged). -/
theorem c4_token_issuance (cs : ClientState) (net : NetResult) :
    (∀ result fs tok, InterQRApiClient._request net = .ok result →
      pyOr (lookupField result "data") (.obj []) = .obj fs →
      lookupField fs "token" = some tok → tok.truthy = true →
      InterQRApiClient.verify_2fa cs net = ({ cs with token := tok }, .ok result))
  ∧ (∀ result fs, InterQRApiClient._request net = .ok result →
      pyOr (lookupField result "data") (.obj []) = .obj fs →
      ((lookupField fs "token").getD Jv.null).truthy = false →
      InterQRApiClient.verify_2fa cs net =
        (cs, .error (.interQRAuthError "No token in verify response")))
  ∧ (∀ e, InterQRApiClient._request net = .error e →
      InterQRApiClient.verify_2fa cs net = (cs, .error e))
  ∧ (∀ result, InterQRApiClient._request net = .ok result →
      (pyOr (lookupField result "data") (.obj [])).isObj = false →
      InterQRApiClient.verify_2fa cs net = (cs, .error .attributeError)) := by
  refine ⟨?_, ?_, ?_, ?_⟩
  · intro result fs tok hreq hdata htok htr
    simp [InterQRApiClient.verify_2fa, hreq, hdata, pyGet, htok, htr]
  · intro result fs hreq hdata htok
    simp [InterQRApiClient.verify_2fa, hreq, hdata, pyGet, htok]
  · intro e hreq
    simp [InterQRApiClient.verify_2fa, hreq]
  · intro result hreq hobj
    simp [InterQRApiClient.verify_2fa, hreq, pyGet_not_obj _ _ hobj]

/-- C4 witness: a verify response carrying `data.token = "T"` stores the
token. -/
theorem c4_token_issuance_witness :
    InterQRApiClient.verify_2fa { token := .null, device_uuid := .null }
        (.response 200 "application/json" 10
          (some [("data", .obj [("token", .str "T")])])) =
      ({ token := .str "T", device_uuid := .null },
       .ok [("data", .obj [("token", .str "T")])]) :=
  (c4_token_issuance { token := .null, device_uuid := .null }
    (.response 200 "application/json" 10
      (some [("data", .obj [("token", .str "T")])]))).1
    [("data", .obj [("token", .str "T")])] [("token", .str "T")] (.str "T")
    rfl rfl rfl rfl

/-- C6 counterexample: a user-details response whose body is
`{"data": 5}` has a non-null `data` field, yet the poll raises
`AttributeError` (at `data.get("locks", [])`) instead of returning
`{"locks": []}` or `UpdateFailed`. -/
theorem c6_counterexample :
    InterQRDataCoordinator._async_update_data
        (.response 200 "application/json" 10 (some [("data", .num 5)])) =
      .error .attributeError
    ∧ lookupField [("data", Jv.num 5)] "data" = some (Jv.num 5)
    ∧ (Jv.num 5).isNull = false :=
  ⟨rfl, rfl, rfl⟩

/-- C6 (amended): for every user-details response whose `data` field is a
dict, the poll returns exactly `{"locks": l}` with `l` the response's
`data.locks` value unchanged (the empty list when absent); a missing or
`null` `data` field, or a connection error, raises `UpdateFailed` (a truthy
non-dict `data` instead raises `AttributeError`). -/
theorem c6_poll_passthrough (net : NetResult) :
    (∀ result fs, InterQRApiClient._request net = .ok result →
      lookupField result "data" = some (.obj fs) →
      InterQRDataCoordinator._async_update_data net =
        .ok [("locks", (lookupField fs "locks").getD (.arr []))])
  ∧ (∀ result, InterQRApiClient._request net = .ok result →
      lookupField result "data" = none →
      InterQRDataCoordinator._async_update_data net =
        .error (.updateFailed "InterQR API returned no user data"))
  ∧ (∀ result, InterQRApiClient._request net = .ok result →
      lookupField result "data" = some .null →
      InterQRDataCoordinator._async_update_data net =
        .error (.updateFailed "InterQR API returned no user data"))
  ∧ (∀ m, InterQRApiClient._request net = .error (.interQRConnectionError m) →
      InterQRDataCoordinator._async_update_data net =
        .error (.updateFailed ("Error fetching InterQR data: " ++ m))) := by
  refine ⟨?_, ?_, ?_, ?_⟩
  · intro result fs hreq hdata
    simp [InterQRDataCoordinator._async_update_data,
      InterQRApiClient.get_user_details, hreq, hdata, Jv.isNull, pyGetD]
  · intro result hreq hdata
    simp [InterQRDataCoordinator._async_update_data,
      InterQRApiClient.get_user_details, hreq, hdata]
  · intro result hreq hdata
    simp [InterQRDataCoordinator._async_update_data,
      InterQRApiClient.get_user_details, hreq, hdata, Jv.isNull]
  · intro m hreq
    simp [InterQRDataCoordinator._async_update_data,
      InterQRApiClient.get_user_details, hreq]

/-- C6 witness: a response with one lock record is passed through
unchanged. -/
theorem c6_poll_passthrough_witness :
    InterQRDataCoordinator._async_update_data
      (.response 200 "application/json" 10
        (some [("data", .obj [("locks", .arr [.str "a"])])])) =
      .ok [("locks", .arr [.str "a"])] :=
  (c6_poll_passthrough (.response 200 "application/json" 10
      (some [("data", .obj [("locks", .arr [.str "a"])])]))).1
    [("data", .obj [("locks", .arr [.str "a"])])] [("locks", .arr [.str "a"])]
    rfl rfl

/-- C9: the lock-identifier validation contradicts its own docstring ("any
non-empty string composed of alphanumeric characters and hyphens"): the
string `"abc\n"` contains a character outside `[0-9a-zA-Z-]`, yet because
Python's `$` anchor also matches before a trailing newline, validation
passes and both `unlock` and `unlock_long` issue the HTTP request; a
character violation elsewhere, or an empty string, does raise `ValueError`
before any request. -/
theorem c9_validate_uuid_trailing_newline (net : NetResult) :
    ("abc\n".data.all (fun c => c.isAlphanum || c == '-')) = false
  ∧ InterQRApiClient.unlock "abc\n" net =
      ([.apiRequest "POST" "/locks/abc\n/unlock"], InterQRApiClient._request net)
  ∧ InterQRApiClient.unlock_long "abc\n" net =
      ([.apiRequest "POST" "/locks/abc\n/unlock-long"], InterQRApiClient._request net)
  ∧ InterQRApiClient.unlock "ab/c" net =
      ([], .error (.valueError "Invalid lock_uuid format: expected alphanumeric identifier"))
  ∧ InterQRApiClient.unlock "" net =
      ([], .error (.valueError "Invalid lock_uuid format: expected alphanumeric identifier"))
  ∧ InterQRApiClient.unlock_long "ab/c" net =
      ([], .error (.valueError "Invalid lock_uuid format: expected alphanumeric identifier")) :=
  ⟨rfl, rfl, rfl, rfl, rfl, rfl⟩

/-- C1: `async_lock` sends no API request — it only cancels a pending
auto-relock timer (the handle is cleared) and sets the locked state to
`True`; and among the client's endpoint templates the lock-control ones are
exactly `unlock` and `unlock-long` (no lock command). -/
theorem c1_unlock_only (w : LockWorld) :
    (InterQRLock.async_lock w).2.all (fun e => !e.isApiReq) = true
  ∧ (InterQRLock.async_lock w).1.entity.is_locked = true
  ∧ (InterQRLock.async_lock w).1.entity.cancel_relock = none
  ∧ (∀ id, w.entity.cancel_relock = some id →
      Effect.cancelLater id ∈ (InterQRLock.async_lock w).2)
  ∧ apiEndpointTemplates.filter (fun e => strContains e "/locks/") =
      [ENDPOINT_UNLOCK, ENDPOINT_UNLOCK_LONG] := by
  refine ⟨?_, ?_, ?_, ?_, by decide⟩
  · rcases hc : w.entity.cancel_relock with _ | id <;>
      simp [InterQRLock.async_lock, hc, Effect.isApiReq]
  · rcases hc : w.entity.cancel_relock with _ | id <;>
      simp [InterQRLock.async_lock, hc]
  · rcases hc : w.entity.cancel_relock with _ | id <;>
      simp [InterQRLock.async_lock, hc]
  · intro id hid
    simp [InterQRLock.async_lock, hid]

/-- C1 witness: locking an entity with a pending timer cancels that timer. -/
theorem c1_unlock_only_witness :
    Effect.cancelLater 0 ∈
      (InterQRLock.async_lock ⟨⟨true, false, some 0, false, "u"⟩, [0], 1⟩).2 :=
  (c1_unlock_only _).2.2.2.1 0 rfl

/-- C2: `RELOCK_DELAY` is 5 seconds; a successful `async_unlock` leaves the
entity unlocked with an auto-relock callback scheduled after `RELOCK_DELAY`
whose firing re-locks the entity; a failing unlock leaves the entity locked
and schedules nothing; a successful `async_open` on a long-unlock-capable
lock behaves like a successful unlock. -/
theorem c2_auto_status_reset (w : LockWorld) (net : NetResult) :
    RELOCK_DELAY = 5
  ∧ ((InterQRLock.async_unlock w net).2.2 = .ok () →
      (InterQRLock.async_unlock w net).1.entity.is_locked = false
      ∧ (InterQRLock.async_unlock w net).1.entity.cancel_relock = some w.nextTimer
      ∧ Effect.scheduleLater w.nextTimer RELOCK_DELAY ∈
          (InterQRLock.async_unlock w net).2.1
      ∧ (InterQRLock._async_relock (InterQRLock.async_unlock w net).1
          w.nextTimer).1.entity.is_locked = true)
  ∧ (∀ e, (InterQRLock.async_unlock w net).2.2 = .error e →
      (InterQRLock.async_unlock w net).1.entity.is_locked = true
      ∧ ∀ id d, Effect.scheduleLater id d ∉ (InterQRLock.async_unlock w net).2.1)
  ∧ (w.entity.allow_long_unlock = true →
      (InterQRLock.async_open w net).2.2 = .ok () →
      (InterQRLock.async_open w net).1.entity.is_locked = false
      ∧ (InterQRLock.async_open w net).1.entity.cancel_relock = some w.nextTimer
      ∧ Effect.scheduleLater w.nextTimer RELOCK_DELAY ∈
          (InterQRLock.async_open w net).2.1
      ∧ (InterQRLock._async_relock (InterQRLock.async_open w net).1
          w.nextTimer).1.entity.is_locked = true) := by
  refine ⟨rfl, ?_, ?_, ?_⟩
  · intro hok
    rcases hu : InterQRApiClient.unlock w.entity.lock_uuid net with ⟨ae, res⟩
    cases res with
    | error e =>
      simp [InterQRLock.async_unlock, hu] at hok
    | ok r =>
      rcases hc : w.entity.cancel_relock with _ | id <;>
        simp [InterQRLock.async_unlock, InterQRLock._schedule_auto_relock,
          InterQRLock._async_relock, hu, hc]
  · intro e herr
    rcases hu : InterQRApiClient.unlock w.entity.lock_uuid net with ⟨ae, res⟩
    cases res with
    | ok r =>
      simp [InterQRLock.async_unlock, hu] at herr
    | error e' =>
      refine ⟨by simp [InterQRLock.async_unlock, hu], ?_⟩
      intro id d hmem
      simp [InterQRLock.async_unlock, hu, List.mem_append] at hmem
      exact liftApiEffects_no_schedule ae id d hmem
  · intro hlong hok
    rcases hu : InterQRApiClient.unlock_long w.entity.lock_uuid net with ⟨ae, res⟩
    cases res with
    | error e =>
      simp [InterQRLock.async_open, hlong, hu] at hok
    | ok r =>
      rcases hc : w.entity.cancel_relock with _ | id <;>
        simp [InterQRLock.async_open, InterQRLock._schedule_auto_relock,
          InterQRLock._async_relock, hlong, hu, hc]

/-- C2 witness: a successful and a failing unlock on a concrete lock. -/
theorem c2_auto_status_reset_witness :
    ((InterQRLock.async_unlock ⟨⟨true, false, none, true, "u1"⟩, [], 0⟩
        (.response 200 "application/json" 2 (some []))).1.entity.is_locked = false
      ∧ Effect.scheduleLater 0 RELOCK_DELAY ∈
          (InterQRLock.async_unlock ⟨⟨true, false, none, true, "u1"⟩, [], 0⟩
            (.response 200 "application/json" 2 (some []))).2.1)
  ∧ (InterQRLock.async_unlock ⟨⟨true, false, none, true, "u1"⟩, [], 0⟩
        (.clientError "boom")).1.entity.is_locked = true := by
  constructor
  · have h := (c2_auto_status_reset ⟨⟨true, false, none, true, "u1"⟩, [], 0⟩
      (.response 200 "application/json" 2 (some []))).2.1 rfl
    exact ⟨h.1, h.2.2.1⟩
  · exact ((c2_auto_status_reset ⟨⟨true, false, none, true, "u1"⟩, [], 0⟩
      (.clientError "boom")).2.2.1
      (.interQRConnectionError "Error communicating with InterQR API: boom") rfl).1

/-- C7: under the single-timer invariant there is at most one pending
auto-relock timer, and every lock-entity operation preserves the invariant;
`_schedule_auto_relock` cancels the existing pending timer before scheduling
a new one, and both the relock callback and `async_lock` clear the stored
cancel handle. -/
theorem c7_single_timer (w : LockWorld) (h : timerInv w) :
    w.pendingTimers.length ≤ 1
  ∧ timerInv (InterQRLock._schedule_auto_relock w).1
  ∧ timerInv (InterQRLock.async_lock w).1
  ∧ (∀ id, id ∈ w.pendingTimers → timerInv (InterQRLock._async_relock w id).1)
  ∧ (∀ net, timerInv (InterQRLock.async_unlock w net).1)
  ∧ (∀ net, timerInv (InterQRLock.async_open w net).1)
  ∧ (∀ id, w.entity.cancel_relock = some id →
      (InterQRLock._schedule_auto_relock w).2 =
        [Effect.cancelLater id, Effect.scheduleLater w.nextTimer RELOCK_DELAY])
  ∧ (InterQRLock.async_lock w).1.entity.cancel_relock = none
  ∧ (∀ id, (InterQRLock._async_relock w id).1.entity.cancel_relock = none) := by
  rcases hc : w.entity.cancel_relock with _ | id0 <;>
    simp only [timerInv, hc] at h
  · refine ⟨by simp [h], ?_, ?_, ?_, ?_, ?_, ?_, ?_, ?_⟩
    · simp [InterQRLock._schedule_auto_relock, hc, h, timerInv]
    · simp [InterQRLock.async_lock, hc, h, timerInv]
    · intro id hid
      rw [h] at hid
      simp at hid
    · intro net
      rcases hu : InterQRApiClient.unlock w.entity.lock_uuid net with ⟨ae, res⟩
      cases res <;>
        simp [InterQRLock.async_unlock, InterQRLock._schedule_auto_relock,
          hu, hc, h, timerInv]
    · intro net
      cases hal : w.entity.allow_long_unlock
      · simp [InterQRLock.async_open, hal, timerInv, hc, h]
      · rcases hu : InterQRApiClient.unlock_long w.entity.lock_uuid net with ⟨ae, res⟩
        cases res <;>
          simp [InterQRLock.async_open, InterQRLock._schedule_auto_relock,
            hal, hu, hc, h, timerInv]
    · intro id hid
      simp at hid
    · simp [InterQRLock.async_lock, hc]
    · intro id
      simp [InterQRLock._async_relock]
  · obtain ⟨h1, h2⟩ := h
    refine ⟨by simp [h1], ?_, ?_, ?_, ?_, ?_, ?_, ?_, ?_⟩
    · simp [InterQRLock._schedule_auto_relock, hc, h1, timerInv]
    · simp [InterQRLock.async_lock, hc, h1, timerInv]
    · intro id hid
      rw [h1] at hid
      simp at hid
      subst hid
      simp [InterQRLock._async_relock, h1, timerInv]
    · intro net
      rcases hu : InterQRApiClient.unlock w.entity.lock_uuid net with ⟨ae, res⟩
      cases res <;>
        simp [InterQRLock.async_unlock, InterQRLock._schedule_auto_relock,
          hu, hc, h1, h2, timerInv]
    · intro net
      cases hal : w.entity.allow_long_unlock
      · simp [InterQRLock.async_open, hal, timerInv, hc, h1, h2]
      · rcases hu : InterQRApiClient.unlock_long w.entity.lock_uuid net with ⟨ae, res⟩
        cases res <;>
          simp [InterQRLock.async_open, InterQRLock._schedule_auto_relock,
            hal, hu, hc, h1, h2, timerInv]
    · intro id hid
      injection hid with hh
      subst hh
      simp [InterQRLock._schedule_auto_relock, hc]
    · simp [InterQRLock.async_lock, hc]
    · intro id
      simp [InterQRLock._async_relock]

/-- C7 witness: scheduling over an existing pending timer first cancels it. -/
theorem c7_single_timer_witness :
    (InterQRLock._schedule_auto_relock ⟨⟨true, false, some 0, true, "u"⟩, [0], 1⟩).2 =
      [Effect.cancelLater 0, Effect.scheduleLater 1 RELOCK_DELAY] :=
  (c7_single_timer ⟨⟨true, false, some 0, true, "u"⟩, [0], 1⟩
    ⟨rfl, Nat.zero_lt_one⟩).2.2.2.2.2.2.1 0 rfl

/-- C8: when the reauth step's quick re-login succeeds with a truthy token
and the config entry exists, the flow updates the entry to
`{**entry.data, token: tok}` — so the token key maps to the new token and
every other key keeps its previous value — and aborts with
`reauth_successful`. -/
theorem c8_token_refresh (s : FlowState) (entry_data e : List (String × Jv))
    (net : NetResult) (fs result : List (String × Jv)) (tok : Jv)
    (hdev : ((lookupField entry_data CONF_DEVICE_UUID).getD (.str "")).truthy = true)
    (hreq : InterQRApiClient._request net = .ok result)
    (hdata : pyOr (lookupField result "data") (.obj []) = .obj fs)
    (htok : lookupField fs "token" = some tok)
    (htr : tok.truthy = true) :
    InterQRConfigFlow.async_step_reauth s entry_data net (some e) =
      .ok
        ({ s with
             base_url := (lookupField entry_data CONF_BASE_URL).getD
               (.str DEFAULT_BASE_URL),
             device_uuid := (lookupField entry_data CONF_DEVICE_UUID).getD (.str ""),
             phone := (lookupField entry_data CONF_PHONE).getD (.str ""),
             api := some { token := tok, device_uuid := Jv.null } },
         some (dictSet e CONF_TOKEN tok), .abort "reauth_successful")
  ∧ lookupField (dictSet e CONF_TOKEN tok) CONF_TOKEN = some tok
  ∧ (∀ k, ¬ k = CONF_TOKEN →
      lookupField (dictSet e CONF_TOKEN tok) k = lookupField e k) := by
  refine ⟨?_, lookupField_dictSet_self e CONF_TOKEN tok,
    fun k hk => lookupField_dictSet_ne e CONF_TOKEN tok k hk⟩
  simp [InterQRConfigFlow.async_step_reauth, InterQRApiClient.login,
    hdev, hreq, hdata, pyGet, htok, htr]

/-- C8 witness: a concrete entry keeps `base_url` and `phone` and only the
token is replaced. -/
theorem c8_token_refresh_witness :
    InterQRConfigFlow.async_step_reauth initFlowState
      [(CONF_DEVICE_UUID, .str "D")]
      (.response 200 "application/json" 10
        (some [("data", .obj [("token", .str "T2")])]))
      (some [(CONF_BASE_URL, .str "B"), (CONF_TOKEN, .str "old"),
             (CONF_PHONE, .str "+12345678")]) =
      .ok
        (⟨.str DEFAULT_BASE_URL, .str "", .str "D", .null, 0,
          some ⟨.str "T2", .null⟩⟩,
         some [(CONF_BASE_URL, .str "B"), (CONF_TOKEN, .str "T2"),
               (CONF_PHONE, .str "+12345678")],
         .abort "reauth_successful") :=
  (c8_token_refresh initFlowState [(CONF_DEVICE_UUID, .str "D")]
    [(CONF_BASE_URL, .str "B"), (CONF_TOKEN, .str "old"),
     (CONF_PHONE, .str "+12345678")]
    (.response 200 "application/json" 10
      (some [("data", .obj [("token", .str "T2")])]))
    [("token", .str "T2")] [("data", .obj [("token", .str "T2")])]
    (.str "T2") rfl rfl rfl rfl rfl).1



/-- Helper: if the auth phase of the user step ends at the verification
form, both requests succeeded and the attempt counter is zero. -/
theorem userAuthPhase_verify_form (s : FlowState) (gen : String)
    (initNet start2faNet : NetResult) (s' : FlowState)
    (errs : List (String × String))
    (h : InterQRConfigFlow.userAuthPhase s gen initNet start2faNet =
      .ok (s', .showForm "verify" errs)) :
    exceptIsOk (InterQRApiClient._request initNet) = true
    ∧ exceptIsOk (InterQRApiClient._request start2faNet) = true
    ∧ s'.twofa_attempts = 0 := by
  rcases hi : InterQRApiClient.init_device ⟨Jv.null, Jv.null⟩ (.str gen) initNet
    with ⟨cs1, initRes⟩
  simp only [InterQRConfigFlow.userAuthPhase, hi] at h
  cases initRes with
  | error e => cases e <;> simp_all
  | ok r1 =>
    have hio := init_device_ok_request _ _ _ _ _ hi
    rcases hreq2 : InterQRApiClient._request start2faNet with e2 | r2
    · simp only [InterQRApiClient.start_2fa, hreq2] at h
      cases e2 <;> simp_all
    · simp only [InterQRApiClient.start_2fa, hreq2] at h
      cases hg : pyGet (pyOr (lookupField r2 "data") (.obj []))
          "second_auth_token" with
      | error e => simp only [hg] at h; simp at h
      | ok satOpt =>
        simp only [hg, InterQRConfigFlow.async_step_verify] at h
        refine ⟨hio, by simp [exceptIsOk], ?_⟩
        have h2 := congrArg Prod.fst (Except.ok.inj h)
        simp only at h2
        rw [← h2]

/-- Helper: the reauth-confirm auth phase ending at the verification form
implies both requests succeeded and the attempt counter is zero. -/
theorem reauthConfirmAuthPhase_verify_form (s : FlowState) (cs : ClientState)
    (gen : String) (initNet start2faNet : NetResult) (s' : FlowState)
    (errs : List (String × String))
    (h : InterQRConfigFlow.reauthConfirmAuthPhase s cs gen initNet start2faNet =
      .ok (s', .showForm "verify" errs)) :
    exceptIsOk (InterQRApiClient._request initNet) = true
    ∧ exceptIsOk (InterQRApiClient._request start2faNet) = true
    ∧ s'.twofa_attempts = 0 := by
  rcases hi : InterQRApiClient.init_device cs (.str gen) initNet
    with ⟨cs1, initRes⟩
  simp only [InterQRConfigFlow.reauthConfirmAuthPhase, hi] at h
  cases initRes with
  | error e => cases e <;> simp_all
  | ok r1 =>
    have hio := init_device_ok_request _ _ _ _ _ hi
    rcases hreq2 : InterQRApiClient._request start2faNet with e2 | r2
    · simp only [InterQRApiClient.start_2fa, hreq2] at h
      cases e2 <;> simp_all
    · simp only [InterQRApiClient.start_2fa, hreq2,
        InterQRConfigFlow.async_step_verify] at h
      refine ⟨hio, by simp [exceptIsOk], ?_⟩
      have h2 := congrArg Prod.fst (Except.ok.inj h)
      simp only at h2
      rw [← h2]

/-- Helper: if `async_step_user` ends at the verification form, both
requests succeeded and the attempt counter was reset to zero. -/
theorem step_user_verify_form (s : FlowState) (ui : UserInput)
    (urlErr : Option String) (gen : String) (initNet start2faNet : NetResult)
    (s' : FlowState) (errs : List (String × String))
    (h : InterQRConfigFlow.async_step_user s (some ui) urlErr gen initNet
      start2faNet = .ok (s', .showForm "verify" errs)) :
    exceptIsOk (InterQRApiClient._request initNet) = true
    ∧ exceptIsOk (InterQRApiClient._request start2faNet) = true
    ∧ s'.twofa_attempts = 0 := by
  obtain ⟨srv, ph, cu⟩ := ui
  cases srv with
  | production =>
    simp only [InterQRConfigFlow.async_step_user] at h
    by_cases hp : reMatchPhone (pyStrip ph) = true
    · simp only [hp] at h
      simp only [List.isEmpty_nil, Bool.not_true, Bool.true_and,
        Bool.not_false, if_false, ite_false, ite_true] at h
      simp at h
      exact userAuthPhase_verify_form _ _ _ _ _ _ h
    · simp only [Bool.not_eq_true] at hp
      simp [hp] at h
  | development =>
    simp only [InterQRConfigFlow.async_step_user] at h
    by_cases hp : reMatchPhone (pyStrip ph) = true
    · simp only [hp] at h
      simp at h
      exact userAuthPhase_verify_form _ _ _ _ _ _ h
    · simp only [Bool.not_eq_true] at hp
      simp [hp] at h
  | custom =>
    simp only [InterQRConfigFlow.async_step_user] at h
    by_cases hcu : pyStrip cu = ""
    · simp [hcu] at h
    · rcases urlErr with _ | ue
      · by_cases hp : reMatchPhone (pyStrip ph) = true
        · simp only [hcu, hp] at h
          simp [hcu] at h
          exact userAuthPhase_verify_form _ _ _ _ _ _ h
        · simp only [Bool.not_eq_true] at hp
          simp [hcu, hp] at h
      · simp [hcu] at h

/-- Helper: if `async_step_reauth_confirm` ends at the verification form,
both requests succeeded and the attempt counter was reset to zero. -/
theorem step_reauth_confirm_verify_form (s : FlowState) (phoneIn : String)
    (gen : String) (initNet start2faNet : NetResult) (s' : FlowState)
    (errs : List (String × String))
    (h : InterQRConfigFlow.async_step_reauth_confirm s (some phoneIn) gen
      initNet start2faNet = .ok (s', .showForm "verify" errs)) :
    exceptIsOk (InterQRApiClient._request initNet) = true
    ∧ exceptIsOk (InterQRApiClient._request start2faNet) = true
    ∧ s'.twofa_attempts = 0 := by
  simp only [InterQRConfigFlow.async_step_reauth_confirm] at h
  by_cases hp : reMatchPhone (pyStrip phoneIn) = true
  · simp only [hp, Bool.not_true, Bool.false_eq_true, if_false] at h
    cases hapi : s.api with
    | none => simp only [hapi] at h; simp at h
    | some cs =>
      simp only [hapi] at h
      exact reauthConfirmAuthPhase_verify_form _ _ _ _ _ _ _ h
  · simp only [Bool.not_eq_true] at hp
    simp [hp] at h

/-- Helper: any successful result of `verifyCall` keeps the attempt counter
and is never the `too_many_attempts` abort. -/
theorem verifyCall_ok (s : FlowState) (cs : ClientState) (net : NetResult)
    (cfg : Bool) (s' : FlowState) (res : FlowResult)
    (h : InterQRConfigFlow.verifyCall s cs net cfg = .ok (s', res)) :
    s'.twofa_attempts = s.twofa_attempts
    ∧ ¬ res = .abort "too_many_attempts" := by
  rcases hv : InterQRApiClient.verify_2fa cs net with ⟨cs1, vres⟩
  simp only [InterQRConfigFlow.verifyCall, hv] at h
  cases vres with
  | error e =>
    cases e with
    | interQRAuthError m =>
      have hpair := Except.ok.inj h
      have h1 : s = s' := congrArg Prod.fst hpair
      have h2 : FlowResult.showForm "verify" [("base", "invalid_auth")] = res :=
        congrArg Prod.snd hpair
      rw [← h1, ← h2]
      exact ⟨rfl, by simp⟩
    | interQRConnectionError m =>
      have hpair := Except.ok.inj h
      have h1 : s = s' := congrArg Prod.fst hpair
      have h2 : FlowResult.showForm "verify" [("base", "cannot_connect")] = res :=
        congrArg Prod.snd hpair
      rw [← h1, ← h2]
      exact ⟨rfl, by simp⟩
    | valueError m => simp at h
    | attributeError => simp at h
    | typeError => simp at h
    | configEntryAuthFailed m => simp at h
    | updateFailed m => simp at h
  | ok vr =>
    cases hg1 : pyGet (pyOr (lookupField vr "data") (.obj [])) "token" with
    | error e => simp only [hg1] at h; simp at h
    | ok tOpt =>
      cases hg2 : pyGetD (pyOr (lookupField vr "data") (.obj [])) "uuid"
          (.str "") with
      | error e => simp only [hg1, hg2] at h; simp at h
      | ok uu =>
        simp only [hg1, hg2] at h
        by_cases ht : (tOpt.getD Jv.null).truthy = true
        · cases cfg with
          | true =>
            simp [ht] at h
            obtain ⟨h1, h2⟩ := h
            refine ⟨?_, ?_⟩
            · rw [← h1]
            · rw [← h2]; simp
          | false =>
            cases hm : pyMaskPhone s.phone with
            | error e => simp [ht, hm] at h
            | ok masked =>
              simp [ht, hm] at h
              obtain ⟨h1, h2⟩ := h
              refine ⟨?_, ?_⟩
              · rw [← h1]
              · rw [← h2]; simp
        · simp only [Bool.not_eq_true] at ht
          simp [ht] at h
          obtain ⟨h1, h2⟩ := h
          refine ⟨?_, ?_⟩
          · rw [← h1]
          · rw [← h2]; simp

/-- Helper: `verifyCall` creating an entry implies `verify_2fa` succeeded
with a truthy stored token and the entry data has exactly the five config
keys. -/
theorem verifyCall_createEntry (s : FlowState) (cs : ClientState)
    (net : NetResult) (cfg : Bool) (s' : FlowState) (t : String)
    (d : List (String × Jv))
    (h : InterQRConfigFlow.verifyCall s cs net cfg = .ok (s', .createEntry t d)) :
    d.map Prod.fst =
      [CONF_BASE_URL, CONF_TOKEN, CONF_DEVICE_UUID, CONF_USER_UUID, CONF_PHONE]
    ∧ exceptIsOk (InterQRApiClient.verify_2fa cs net).2 = true
    ∧ (InterQRApiClient.verify_2fa cs net).1.token.truthy = true := by
  rcases hv : InterQRApiClient.verify_2fa cs net with ⟨cs1, vres⟩
  simp only [InterQRConfigFlow.verifyCall, hv] at h
  cases vres with
  | error e => cases e <;> simp at h
  | ok vr =>
    have htok := verify_2fa_ok_token cs net cs1 vr hv
    cases hg1 : pyGet (pyOr (lookupField vr "data") (.obj [])) "token" with
    | error e => simp only [hg1] at h; simp at h
    | ok tOpt =>
      cases hg2 : pyGetD (pyOr (lookupField vr "data") (.obj [])) "uuid"
          (.str "") with
      | error e => simp only [hg1, hg2] at h; simp at h
      | ok uu =>
        simp only [hg1, hg2] at h
        by_cases ht : (tOpt.getD Jv.null).truthy = true
        · cases cfg with
          | true => simp [ht] at h
          | false =>
            cases hm : pyMaskPhone s.phone with
            | error e => simp [ht, hm] at h
            | ok masked =>
              simp [ht, hm] at h
              obtain ⟨h1, h2, h3⟩ := h
              refine ⟨?_, by simp [hv, exceptIsOk], by simp [hv, htok]⟩
              rw [← h3]
              simp
        · simp only [Bool.not_eq_true] at ht
          simp [ht] at h

/-- C5: the config flow reaches the verification form only when device init
and 2FA start both succeeded (from the user step and from the
reauth-confirm step alike), and the verify step creates a config entry only
when `verify_2fa` succeeded with a truthy token — and the created entry's
data has exactly the five keys `base_url`, `token`, `device_uuid`,
`user_uuid`, `phone`. -/
theorem c5_entry_creation :
    (∀ s ui urlErr gen initNet start2faNet s' errs,
      InterQRConfigFlow.async_step_user s (some ui) urlErr gen initNet
        start2faNet = .ok (s', .showForm "verify" errs) →
      exceptIsOk (InterQRApiClient._request initNet) = true
      ∧ exceptIsOk (InterQRApiClient._request start2faNet) = true)
  ∧ (∀ s phoneIn gen initNet start2faNet s' errs,
      InterQRConfigFlow.async_step_reauth_confirm s (some phoneIn) gen initNet
        start2faNet = .ok (s', .showForm "verify" errs) →
      exceptIsOk (InterQRApiClient._request initNet) = true
      ∧ exceptIsOk (InterQRApiClient._request start2faNet) = true)
  ∧ (∀ s cs code net cfg s' t d, s.api = some cs →
      InterQRConfigFlow.async_step_verify s (some code) net cfg =
        .ok (s', .createEntry t d) →
      d.map Prod.fst =
        [CONF_BASE_URL, CONF_TOKEN, CONF_DEVICE_UUID, CONF_USER_UUID, CONF_PHONE]
      ∧ exceptIsOk (InterQRApiClient.verify_2fa cs net).2 = true
      ∧ (InterQRApiClient.verify_2fa cs net).1.token.truthy = true) := by
  refine ⟨?_, ?_, ?_⟩
  · intro s ui urlErr gen initNet start2faNet s' errs h
    have := step_user_verify_form s ui urlErr gen initNet start2faNet s' errs h
    exact ⟨this.1, this.2.1⟩
  · intro s phoneIn gen initNet start2faNet s' errs h
    have := step_reauth_confirm_verify_form s phoneIn gen initNet start2faNet
      s' errs h
    exact ⟨this.1, this.2.1⟩
  · intro s cs code net cfg s' t d hapi h
    simp only [InterQRConfigFlow.async_step_verify] at h
    split at h
    · simp at h
    · split at h
      · simp at h
      · rw [hapi] at h
        exact verifyCall_createEntry _ _ _ _ _ _ _ h

/-- C5 witness: a concrete verify submission that creates an entry with the
five keys. -/
theorem c5_entry_creation_witness :
    ([(CONF_BASE_URL, Jv.str "B"), (CONF_TOKEN, Jv.str "T"),
      (CONF_DEVICE_UUID, Jv.str "D"), (CONF_USER_UUID, Jv.str "U"),
      (CONF_PHONE, Jv.str "+12345678")].map Prod.fst =
      [CONF_BASE_URL, CONF_TOKEN, CONF_DEVICE_UUID, CONF_USER_UUID, CONF_PHONE])
    ∧ exceptIsOk (InterQRApiClient.verify_2fa ⟨Jv.null, Jv.null⟩
        (.response 200 "application/json" 10
          (some [("data", .obj [("token", .str "T"), ("uuid", .str "U")])]))).2 =
        true
    ∧ (InterQRApiClient.verify_2fa ⟨Jv.null, Jv.null⟩
        (.response 200 "application/json" 10
          (some [("data", .obj [("token", .str "T"), ("uuid", .str "U")])]))).1.token.truthy =
        true :=
  c5_entry_creation.2.2
    ⟨Jv.str "B", Jv.str "+12345678", Jv.str "D", Jv.null, 0, some ⟨Jv.null, Jv.null⟩⟩
    ⟨Jv.null, Jv.null⟩ "1234"
    (.response 200 "application/json" 10
      (some [("data", .obj [("token", .str "T"), ("uuid", .str "U")])]))
    false
    ⟨Jv.str "B", Jv.str "+12345678", Jv.str "D", Jv.null, 1, some ⟨Jv.str "T", Jv.null⟩⟩
    "InterQR (*****5678)"
    [(CONF_BASE_URL, Jv.str "B"), (CONF_TOKEN, Jv.str "T"),
     (CONF_DEVICE_UUID, Jv.str "D"), (CONF_USER_UUID, Jv.str "U"),
     (CONF_PHONE, Jv.str "+12345678")]
    rfl rfl

/-- C10: `MAX_2FA_ATTEMPTS` is 5; a submission arriving when the counter has
already reached the limit is aborted with `too_many_attempts`; below the
limit every submission — valid or invalid code format alike — is processed,
incrementing the counter by one and never yielding that abort; and both 2FA
sequence starters (the user step and the reauth-confirm step) reset the
counter to zero when they hand over to the verification form. -/
theorem c10_attempt_limit :
    MAX_2FA_ATTEMPTS = 5
  ∧ (∀ s code net cfg, MAX_2FA_ATTEMPTS ≤ s.twofa_attempts →
      InterQRConfigFlow.async_step_verify s (some code) net cfg =
        .ok ({ s with twofa_attempts := s.twofa_attempts + 1 },
          .abort "too_many_attempts"))
  ∧ (∀ s code net cfg s' res, s.twofa_attempts < MAX_2FA_ATTEMPTS →
      InterQRConfigFlow.async_step_verify s (some code) net cfg =
        .ok (s', res) →
      s'.twofa_attempts = s.twofa_attempts + 1
      ∧ ¬ res = .abort "too_many_attempts")
  ∧ (∀ s code net cfg, s.twofa_attempts < MAX_2FA_ATTEMPTS →
      reMatchCode (pyStrip code) = false →
      InterQRConfigFlow.async_step_verify s (some code) net cfg =
        .ok ({ s with twofa_attempts := s.twofa_attempts + 1 },
          .showForm "verify" [("code", "invalid_code")]))
  ∧ (∀ s ui urlErr gen initNet start2faNet s' errs,
      InterQRConfigFlow.async_step_user s (some ui) urlErr gen initNet
        start2faNet = .ok (s', .showForm "verify" errs) →
      s'.twofa_attempts = 0)
  ∧ (∀ s phoneIn gen initNet start2faNet s' errs,
      InterQRConfigFlow.async_step_reauth_confirm s (some phoneIn) gen initNet
        start2faNet = .ok (s', .showForm "verify" errs) →
      s'.twofa_attempts = 0) := by
  refine ⟨rfl, ?_, ?_, ?_, ?_, ?_⟩
  · intro s code net cfg hge
    have hc : decide (s.twofa_attempts + 1 > MAX_2FA_ATTEMPTS) = true :=
      decide_eq_true (by omega)
    simp [InterQRConfigFlow.async_step_verify, hc]
  · intro s code net cfg s' res hlt h
    simp only [InterQRConfigFlow.async_step_verify] at h
    have hc : decide (s.twofa_attempts + 1 > MAX_2FA_ATTEMPTS) = false :=
      decide_eq_false (by omega)
    simp only [hc, Bool.false_eq_true, if_false] at h
    by_cases hcode : reMatchCode (pyStrip code) = true
    · simp only [hcode, Bool.not_true, Bool.false_eq_true, if_false] at h
      cases hapi : s.api with
      | none => simp only [hapi] at h; simp at h
      | some cs =>
        simp only [hapi] at h
        have := verifyCall_ok _ _ _ _ _ _ h
        exact ⟨by rw [this.1], this.2⟩
    · simp only [Bool.not_eq_true] at hcode
      simp [hcode] at h
      obtain ⟨h1, h2⟩ := h
      refine ⟨?_, ?_⟩
      · rw [← h1]
      · rw [← h2]; simp
  · intro s code net cfg hlt hcode
    have hc : decide (s.twofa_attempts + 1 > MAX_2FA_ATTEMPTS) = false :=
      decide_eq_false (by omega)
    simp [InterQRConfigFlow.async_step_verify, hc, hcode]
  · intro s ui urlErr gen initNet start2faNet s' errs h
    exact (step_user_verify_form s ui urlErr gen initNet start2faNet s' errs h).2.2
  · intro s phoneIn gen initNet start2faNet s' errs h
    exact (step_reauth_confirm_verify_form s phoneIn gen initNet start2faNet
      s' errs h).2.2

/-- C10 witness: the sixth submission of one flow is aborted. -/
theorem c10_attempt_limit_witness :
    InterQRConfigFlow.async_step_verify
      ⟨Jv.str "B", Jv.str "p", Jv.str "D", Jv.null, 5, none⟩
      (some "1234") (.clientError "x") false =
      .ok (⟨Jv.str "B", Jv.str "p", Jv.str "D", Jv.null, 6, none⟩,
        .abort "too_many_attempts") :=
  c10_attempt_limit.2.1
    ⟨Jv.str "B", Jv.str "p", Jv.str "D", Jv.null, 5, none⟩
    "1234" (.clientError "x") false (Nat.le_refl 5)
